import Mathlib

/-!
Verification development for the Basin-to-Klaviyo webhook handlers.

The repository contains several variants of one serverless webhook handler.
The primary variant is the first handler of `src/api/klaviyo.js`
(`basin-to-klaviyo.js`): method gate, optional bearer auth, field
normalisation, opt-in check, profile upsert with 409-conflict recovery, and
two list-subscription calls.  Two further variants are embedded where claims
cite them: the sequential-subscribe handler of `src/unnamed/part_001` and the
`klaviyo-subscribe` handler at the end of `src/unnamed/part_002`.

Modelling conventions:
* JavaScript form values are `FormValue` (string / boolean / number /
  null / undefined); `String(v)` is `jsString`, and the repo's `str` helper
  is `str` below.
* JavaScript string primitives (`trim`, `toLowerCase`, `split(/\s+/)`,
  `split("@")`, `encodeURIComponent`) are modelled character-exactly for the
  ASCII range; the handlers' data (emails, phones, tokens) is ASCII.
* Network I/O is an oracle `Oracle : Call → ApiReply` giving each outbound
  request an HTTP status, body text and the parsed fields the code reads
  (`data.id`, `data[0].id`, `errors[0].meta.duplicate_profile_id`, ...).
  Every function returns its result together with the list of outbound
  calls it performed, so trace properties (which calls carry SMS consent,
  how many lookup-by-email calls happen, ...) are first-class.
* Thrown JS errors are `Except` errors; `try`/`catch` is explicit matching.
* Wall-clock values (durations), random request ids and log timestamps are
  not modelled; log entries keep their message and the PII-relevant
  key/value metadata.
-/

deriving instance DecidableEq for Except

/-! ### JavaScript value and string primitives -/

/-- A JavaScript value as it can appear in a parsed webhook payload field. -/
inductive FormValue where
  | vStr (s : String)
  | vBool (b : Bool)
  | vNum (n : Int)
  | vNull
  | vUndefined
deriving DecidableEq

/-- JavaScript `String(v)` coercion. -/
def jsString : FormValue → String
  | .vStr s => s
  | .vBool true => "true"
  | .vBool false => "false"
  | .vNum n => toString n
  | .vNull => "null"
  | .vUndefined => "undefined"

/-- JavaScript `s.trim()` (ASCII whitespace). -/
def jsTrim (s : String) : String :=
  ⟨((s.data.dropWhile Char.isWhitespace).reverse.dropWhile Char.isWhitespace).reverse⟩

/-- JavaScript `s.toLowerCase()` (ASCII range). -/
def jsToLower (s : String) : String :=
  ⟨s.data.map Char.toLower⟩

/-- JavaScript `s.toUpperCase()` (ASCII range). -/
def jsToUpper (s : String) : String :=
  ⟨s.data.map Char.toUpper⟩

/-- The repo's `str` helper: `""` for `undefined`/`null`, else `String(v).trim()`. -/
def str (v : FormValue) : String :=
  match v with
  | .vUndefined => ""
  | .vNull => ""
  | v => jsTrim (jsString v)

/-- The repo's `str` applied to a value that is a string or absent
(`process.env` entries, attribute fields). -/
def strOpt : Option String → String
  | none => ""
  | some s => jsTrim s

/-- JavaScript `x || null` on an optional string: empty strings collapse to null. -/
def jsOrNull : Option String → Option String
  | none => none
  | some s => if s = "" then none else some s

/-- Tokeniser used to model `split(/\s+/)`: maximal runs of non-whitespace. -/
def wsTokensAux : List Char → List Char → List String
  | [], cur => if cur.isEmpty then [] else [⟨cur.reverse⟩]
  | c :: rest, cur =>
    if c.isWhitespace then
      if cur.isEmpty then wsTokensAux rest [] else ⟨cur.reverse⟩ :: wsTokensAux rest []
    else wsTokensAux rest (c :: cur)

/-- The whitespace-delimited tokens of a string. -/
def wsTokens (s : String) : List String := wsTokensAux s.data []

/-- JavaScript `s.split(/\s+/)`: tokens, plus an empty string at either end
when the string starts/ends with whitespace, and `[""]` for the empty string. -/
def jsSplitWS (s : String) : List String :=
  if s.data.isEmpty then [""]
  else
    (if (s.data.headD ' ').isWhitespace then [""] else []) ++
      wsTokens s ++
      (if (s.data.getLastD ' ').isWhitespace then [""] else [])

/-- JavaScript `s.split(sep)` for a single-character separator. -/
def jsSplitChar (sep : Char) (s : String) : List String :=
  (s.data.splitOn sep).map fun l => ⟨l⟩

/-- Prefix test on character lists. -/
def startsWithList : List Char → List Char → Bool
  | _, [] => true
  | [], _ :: _ => false
  | c :: cs, p :: ps => c == p && startsWithList cs ps

/-- Occurrence of `pat` anywhere in `s`, on character lists. -/
def containsSubAux (s pat : List Char) : Bool :=
  match s with
  | [] => startsWithList [] pat
  | _ :: rest => startsWithList s pat || containsSubAux rest pat

/-- Substring test (used only to state the spec's "region not supported"
error-shape predicate). -/
def containsSub (s pat : String) : Bool :=
  containsSubAux s.data pat.data

/-! ### encodeURIComponent -/

/-- UTF-8 bytes of a character, as naturals below 256. -/
def utf8Bytes (c : Char) : List Nat :=
  let n := c.toNat
  if n < 0x80 then [n]
  else if n < 0x800 then [0xC0 + n / 0x40, 0x80 + n % 0x40]
  else if n < 0x10000 then
    [0xE0 + n / 0x1000, 0x80 + (n / 0x40) % 0x40, 0x80 + n % 0x40]
  else
    [0xF0 + n / 0x40000, 0x80 + (n / 0x1000) % 0x40, 0x80 + (n / 0x40) % 0x40,
      0x80 + n % 0x40]

/-- An uppercase hexadecimal digit. -/
def hexDigit (n : Nat) : Char :=
  "0123456789ABCDEF".data.getD n '0'

/-- Percent-encoding of one byte. -/
def pctByte (n : Nat) : String :=
  ⟨['%', hexDigit (n / 16 % 16), hexDigit (n % 16)]⟩

/-- Characters JavaScript's `encodeURIComponent` leaves unescaped. -/
def isUnreservedChar (c : Char) : Bool :=
  c.isAlphanum || c == '-' || c == '_' || c == '.' || c == '!' || c == '~' ||
    c == '*' || c == Char.ofNat 39 || c == '(' || c == ')'

/-- JavaScript `encodeURIComponent`. -/
def encodeURIComponent (s : String) : String :=
  s.data.foldl
    (fun acc c =>
      if isUnreservedChar c then acc.push c
      else acc ++ String.join ((utf8Bytes c).map pctByte))
    ""

/-! ### Pure helpers of `src/api/klaviyo.js` (primary handler) -/

/-- The primary handler's `isChecked` (src/api/klaviyo.js lines 254-257):
membership of the trimmed, lower-cased string form in
`["on", "true", "1", "yes", "y"]`. -/
def isChecked (v : FormValue) : Bool :=
  let s := jsToLower (str v)
  ["on", "true", "1", "yes", "y"].contains s

/-- The `part_001` variant's `isChecked` (src/unnamed/part_001 line 259),
which additionally accepts `"checked"`. -/
def isChecked_p1 (v : FormValue) : Bool :=
  let s := jsToLower (str v)
  ["on", "true", "1", "yes", "y", "checked"].contains s

/-- The `part_002` variant's `toBool` (src/unnamed/part_002 lines 191-197; named `toBool_p2` here to avoid clashing with Mathlib):
booleans pass through, numbers compare to 1, strings are matched against
`['1', 'true', 'yes', 'on', 'checked']` after trim/lower-case. -/
def toBool_p2 (v : FormValue) : Bool :=
  match v with
  | .vUndefined => false
  | .vNull => false
  | .vBool b => b
  | .vNum n => n == 1
  | .vStr s => ["1", "true", "yes", "on", "checked"].contains (jsToLower (jsTrim s))

/-- Result of a name split: optional `first_name` / `last_name`. -/
structure NameParts where
  first_name : Option String
  last_name : Option String
deriving DecidableEq

/-- The primary handler's `splitName` (src/api/klaviyo.js lines 259-264):
`full.split(/\s+/).filter(Boolean)`; a single token gives no last name,
otherwise the remaining tokens are joined with single spaces. -/
def splitName (full : String) : NameParts :=
  if full = "" then ⟨none, none⟩
  else
    match (jsSplitWS full).filter (fun t => t != "") with
    | [] => ⟨none, some ""⟩
    | [p] => ⟨some p, none⟩
    | p :: rest => ⟨some p, some (String.intercalate " " rest)⟩

/-- The `part_002` variant's `splitName` (src/unnamed/part_002 lines 216-221):
trims, splits on whitespace, and assigns all but the last token to
`first_name` and the last token to `last_name`. -/
def splitName_p2 (name : String) : NameParts :=
  if name = "" then ⟨none, none⟩
  else
    let t := jsTrim name
    let parts := jsSplitWS t
    match parts with
    | [p] => ⟨some p, none⟩
    | ps =>
      ⟨some (String.intercalate " " ps.dropLast),
        some (String.intercalate " " (ps.drop (ps.length - 1)))⟩

/-- The primary handler's `isLikelyUSState`. -/
def isLikelyUSState (v : FormValue) : Bool :=
  let s := jsToUpper (str v)
  ["AL", "AK", "AZ", "AR", "CA", "CO", "CT", "DE", "FL", "GA", "HI", "ID",
    "IL", "IN", "IA", "KS", "KY", "LA", "ME", "MD", "MA", "MI", "MN", "MS",
    "MO", "MT", "NE", "NV", "NH", "NJ", "NM", "NY", "NC", "ND", "OH", "OK",
    "OR", "PA", "RI", "SC", "SD", "TN", "TX", "UT", "VT", "VA", "WA", "WV",
    "WI", "WY", "DC", "PR"].contains s

/-- The primary handler's `isE164Phone` (src/api/klaviyo.js lines 286-289):
`/^\+[1-9]\d{1,14}$/.test(str(v))` — a `+`, a nonzero digit, then 1 to 14
further digits. -/
def isE164Phone (v : String) : Bool :=
  match (jsTrim v).data with
  | c0 :: c :: rest =>
    c0 == '+' && c.isDigit && c != '0' && decide (1 ≤ rest.length) &&
      decide (rest.length ≤ 14) && rest.all Char.isDigit
  | _ => false

/-- The primary handler's `redactEmail`: first character of the local part,
`***@`, then the domain. -/
def redactEmail (email : String) : String :=
  let s := jsTrim email
  match jsSplitChar '@' s with
  | u :: d :: _ => if u = "" ∨ d = "" then "" else u.take 1 ++ "***@" ++ d
  | _ => ""

/-- `pruneUndefined` on a string field: empty strings are dropped
(`undefined`/`null` are already `none`). -/
def pruneStr (s : String) : Option String :=
  if s = "" then none else some s

/-- `pruneUndefined` on an optional string field. -/
def pruneOpt : Option String → Option String
  | none => none
  | some s => if s = "" then none else some s

/-- `pruneUndefined` on an object modelled as key/value pairs. -/
def pruneList (l : List (String × String)) : List (String × String) :=
  l.filter (fun kv => kv.2 != "")

/-! ### Outbound calls, API replies, and the transport oracle -/

/-- The subscribe-job profile built by the primary handler's `subscribeBody`:
email, pruned `phone_number`, and whether the SMS consent key is present. -/
structure SubProfile where
  email : String
  phone_number : Option String
  smsConsent : Bool
deriving DecidableEq

/-- Profile attributes built by the primary handler (after `pruneUndefined`):
`none` fields are absent keys. -/
structure ProfileAttributes where
  email : Option String
  phone_number : Option String
  first_name : Option String
  last_name : Option String
  location : List (String × String)
  properties : Option (List (String × String))
deriving DecidableEq

/-- Profile attributes built by the `part_002` `klaviyo-subscribe` variant's
`buildProfileAttributes` (its constant `subscriptions.email` consent key is
implicit). -/
structure P2Attrs where
  email : Option String
  phone_number : Option String
  first_name : Option String
  last_name : Option String
  location : List (String × String)
  properties : List (String × String)
deriving DecidableEq

/-- The JSON body of an outbound request, as far as the handlers construct
one. -/
inductive CallBody where
  | profileCreate (attrs : ProfileAttributes)
  | profilePatch (id : String) (attrs : ProfileAttributes)
  | subscribeJob (listId : String) (profile : SubProfile)
  | subscribeJobP1 (listId : String) (email : String)
  | subscribeJobP2 (listId : String) (attrs : P2Attrs)
  | noBody
deriving DecidableEq

/-- One outbound HTTP request to the Klaviyo API. -/
structure Call where
  method : String
  path : String
  body : CallBody
deriving DecidableEq

/-- The parsed JSON of a response body, as far as the handlers read it. -/
inductive ApiResponse where
  | obj (id : Option String)
  | list (ids : List String)
  | nullResp
deriving DecidableEq

/-- A transport-level reply: HTTP status, raw text, parsed body, and the
error fields the code (or the spec's error-shape predicate) reads from
`errors[0]` — `meta.duplicate_profile_id`, `code`, `detail`,
`source.pointer`. -/
structure ApiReply where
  status : Nat
  text : String
  json : ApiResponse
  dupId : Option String
  code : Option String
  detail : Option String
  pointer : Option String
deriving DecidableEq

/-- The external platform as an oracle: each outbound request gets a reply. -/
def Oracle := Call → ApiReply

/-- `resp.ok`: status in the 2xx range. -/
def replyOk (r : ApiReply) : Bool :=
  decide (200 ≤ r.status) && decide (r.status < 300)

/-- A thrown JavaScript error: either a `KlaviyoError` carrying the reply and
the request's method/path, or a plain `Error` with a message. -/
inductive JsError where
  | kl (r : ApiReply) (method : String) (path : String)
  | generic (msg : String)
deriving DecidableEq

/-- `err.message` as the handlers read it. -/
def jsMessage : JsError → String
  | .generic m => m
  | .kl r method path =>
    "Klaviyo " ++ method ++ " " ++ path ++ " " ++ toString r.status ++ ": " ++
      (if r.text = "" then "[no body]" else r.text)

/-- `resp?.data?.id` of a parsed response. -/
def respDataId : ApiResponse → Option String
  | .obj id => id
  | _ => none

/-- `resp?.data?.[0]?.id` of a parsed response. -/
def respFirstId : ApiResponse → Option String
  | .list ids => ids.head?
  | _ => none

/-! ### HTTP core and upsert workflow of the primary handler -/

/-- Environment variables the primary handler reads. -/
structure Env where
  apiKey : Option String
  list1 : Option String
  list2 : Option String
  bearer : Option String
  defaultCountry : Option String

/-- The primary handler's `klaviyoRequest`: throws a generic error when the
API key is missing (before any call), otherwise performs the call and throws
a `KlaviyoError` on a non-2xx reply. Returns the result together with the
outbound calls made. -/
def klaviyoRequest (env : Env) (o : Oracle) (method path : String)
    (body : CallBody) : Except JsError ApiResponse × List Call :=
  if env.apiKey.getD "" = "" then
    (.error (.generic "Missing KLAVIYO_PRIVATE_KEY"), [])
  else if replyOk (o ⟨method, path, body⟩) then
    (.ok (o ⟨method, path, body⟩).json, [⟨method, path, body⟩])
  else
    (.error (.kl (o ⟨method, path, body⟩) method path), [⟨method, path, body⟩])

/-- The profile-lookup path `/api/profiles?filter=equals(email,"...")&page[size]=1`. -/
def emailFilterPath (email : String) : String :=
  "/api/profiles?filter=" ++
    encodeURIComponent ("equals(email,\"" ++ email ++ "\")") ++ "&page[size]=1"

/-- The profile-lookup path filtering by phone number. -/
def phoneFilterPath (phone : String) : String :=
  "/api/profiles?filter=" ++
    encodeURIComponent ("equals(phone_number,\"" ++ phone ++ "\")") ++
    "&page[size]=1"

/-- `diagnoseDuplicate`: diagnostic lookups by email and by phone (when
present); all outcomes, including thrown errors, are swallowed, so only the
outbound calls remain observable. -/
def diagnoseDuplicate (env : Env) (o : Oracle) (attrs : ProfileAttributes) :
    List Call :=
  let email := strOpt attrs.email
  let phone := strOpt attrs.phone_number
  (if email = "" then []
   else (klaviyoRequest env o "GET" (emailFilterPath email) .noBody).2) ++
  (if phone = "" then []
   else (klaviyoRequest env o "GET" (phoneFilterPath phone) .noBody).2)

/-- `getProfileIdByEmail`: one lookup call resolving `data[0].id || null`. -/
def getProfileIdByEmail (env : Env) (o : Oracle) (email : String) :
    Except JsError (Option String) × List Call :=
  if email = "" then (.ok none, [])
  else
    match klaviyoRequest env o "GET" (emailFilterPath email) .noBody with
    | (.ok resp, t) => (.ok (jsOrNull (respFirstId resp)), t)
    | (.error e, t) => (.error e, t)

/-- `patchProfile`: `PATCH /api/profiles/{id}` with the same attributes. -/
def patchProfile (env : Env) (o : Oracle) (id : String)
    (attrs : ProfileAttributes) : Except JsError Unit × List Call :=
  match klaviyoRequest env o "PATCH" ("/api/profiles/" ++ id)
      (.profilePatch id attrs) with
  | (.ok _, t) => (.ok (), t)
  | (.error e, t) => (.error e, t)

/-- An upsert outcome: created or patched, with the resolved profile id. -/
structure UpsertResult where
  created : Bool
  patched : Bool
  profileId : Option String
deriving DecidableEq

/-- `upsertProfile` (src/api/klaviyo.js lines 193-225): try to create; on a
409 `KlaviyoError`, run the diagnostic lookups, then PATCH the
`duplicate_profile_id` from the error metadata if present, else resolve the
id with one lookup-by-email and PATCH that; rethrow anything else. -/
def upsertProfile (env : Env) (o : Oracle) (attrs : ProfileAttributes) :
    Except JsError UpsertResult × List Call :=
  match klaviyoRequest env o "POST" "/api/profiles" (.profileCreate attrs) with
  | (.ok resp, t1) =>
    (.ok ⟨true, false, jsOrNull (respDataId resp)⟩, t1)
  | (.error (.generic m), t1) => (.error (.generic m), t1)
  | (.error (.kl r method path), t1) =>
    if r.status = 409 then
      match jsOrNull r.dupId with
      | some dId =>
        (match patchProfile env o dId attrs with
         | (.ok _, t3) =>
           (.ok ⟨false, true, some dId⟩,
             t1 ++ diagnoseDuplicate env o attrs ++ t3)
         | (.error e2, t3) =>
           (.error e2, t1 ++ diagnoseDuplicate env o attrs ++ t3))
      | none =>
        match getProfileIdByEmail env o (strOpt attrs.email) with
        | (.error e2, t3) =>
          (.error e2, t1 ++ diagnoseDuplicate env o attrs ++ t3)
        | (.ok none, t3) =>
          (.error (.generic ("Conflict without profile id and lookup failed for "
              ++ strOpt attrs.email)),
            t1 ++ diagnoseDuplicate env o attrs ++ t3)
        | (.ok (some id), t3) =>
          (match patchProfile env o id attrs with
           | (.ok _, t4) =>
             (.ok ⟨false, true, some id⟩,
               t1 ++ diagnoseDuplicate env o attrs ++ t3 ++ t4)
           | (.error e2, t4) =>
             (.error e2, t1 ++ diagnoseDuplicate env o attrs ++ t3 ++ t4))
    else (.error (.kl r method path), t1)

/-! ### The primary handler (first handler of `src/api/klaviyo.js`) -/

/-- The parsed request payload fields the handlers read. Absent keys are
`vUndefined`. Body parsing (JSON vs urlencoded) is outside the model: the
handler is given the parsed mapping. -/
structure Payload where
  email : FormValue := .vUndefined
  name : FormValue := .vUndefined
  phone : FormValue := .vUndefined
  marketing : FormValue := .vUndefined
  city : FormValue := .vUndefined
  state : FormValue := .vUndefined
  country : FormValue := .vUndefined
  goal : FormValue := .vUndefined
  group : FormValue := .vUndefined
  payment_method : FormValue := .vUndefined
  zip : FormValue := .vUndefined

/-- The primary handler's responses (each `res.status(...).json(...)` site). -/
inductive HResponse where
  | methodNotAllowed
  | unauthorized
  | missingEmail
  | skipped
  | missingListEnv
  | okResp (email : String) (phoneIncluded : Bool) (lists : List String)
      (jobs : List String) (upsert : UpsertResult)
  | internalError (msg : String)
deriving DecidableEq

/-- The HTTP status code of each primary-handler response. -/
def hStatusCode : HResponse → Nat
  | .methodNotAllowed => 405
  | .unauthorized => 401
  | .missingEmail => 400
  | .skipped => 200
  | .missingListEnv => 500
  | .okResp _ _ _ _ _ => 200
  | .internalError _ => 500

/-- The subscription-jobs endpoint path. -/
def subJobsPath : String := "/api/profile-subscription-bulk-create-jobs"

/-- The phone value the primary handler retains: the raw trimmed phone when
it passes `isE164Phone`, else `""`. -/
def retainedPhone (p : Payload) : String :=
  let rawPhone := str p.phone
  if isE164Phone rawPhone then rawPhone else ""

/-- The pruned custom-properties object of the primary handler. -/
def builtProperties (p : Payload) : List (String × String) :=
  pruneList
    [("signup_source", "Shopify Fundraiser Form"), ("goal", str p.goal),
      ("group", str p.group), ("payment_method", str p.payment_method),
      ("zip", str p.zip)]

/-- Country resolution shared by the primary and `part_001` handlers:
explicit field, else the US-state heuristic with the configured default,
else the default alone. -/
def resolvedCountry (defaultCountry : String) (p : Payload) : String :=
  let country := str p.country
  if country = "" then
    if str p.state ≠ "" ∧ isLikelyUSState p.state then
      if defaultCountry = "" then "US" else defaultCountry
    else defaultCountry
  else country

/-- The pruned profile attributes the primary handler sends upstream. -/
def builtAttrs (env : Env) (p : Payload) : ProfileAttributes :=
  let names := splitName (str p.name)
  let props := builtProperties p
  { email := pruneStr (str p.email)
    phone_number := pruneStr (retainedPhone p)
    first_name := pruneOpt names.first_name
    last_name := pruneOpt names.last_name
    location :=
      pruneList
        [("city", str p.city), ("region", str p.state),
          ("country", resolvedCountry (strOpt env.defaultCountry) p)]
    properties := if props.isEmpty then none else some props }

/-- The subscribe-job profile of the primary handler's `subscribeBody`:
email always, `phone_number` when a phone was retained, SMS consent exactly
when a phone was retained. -/
def builtSubProfile (p : Payload) : SubProfile :=
  let phone := retainedPhone p
  { email := str p.email
    phone_number := if phone = "" then none else some phone
    smsConsent := phone != "" }

/-- The primary handler (src/api/klaviyo.js lines 13-188): method gate,
optional bearer auth, email requirement, opt-in check, upsert, then the two
subscription jobs issued by `Promise.all` (both requests are initiated, and
an error from either surfaces as the catch-all internal error). -/
def handler (env : Env) (o : Oracle) (method : String) (auth : Option String)
    (p : Payload) : HResponse × List Call :=
  if method ≠ "POST" then (.methodNotAllowed, [])
  else
    let requiredBearer := env.bearer.getD ""
    if requiredBearer ≠ "" ∧ auth.getD "" ≠ "Bearer " ++ requiredBearer then
      (.unauthorized, [])
    else
      let email := str p.email
      if email = "" then (.missingEmail, [])
      else if !isChecked p.marketing then (.skipped, [])
      else
        let attrs := builtAttrs env p
        match upsertProfile env o attrs with
        | (.error e, t1) => (.internalError (jsMessage e), t1)
        | (.ok upres, t1) =>
          let listA := strOpt env.list1
          let listB := strOpt env.list2
          if listA = "" ∨ listB = "" then (.missingListEnv, t1)
          else
            let subProfile := builtSubProfile p
            let sa :=
              klaviyoRequest env o "POST" subJobsPath
                (.subscribeJob listA subProfile)
            let sb :=
              klaviyoRequest env o "POST" subJobsPath
                (.subscribeJob listB subProfile)
            match sa.1, sb.1 with
            | .error e, _ => (.internalError (jsMessage e), t1 ++ sa.2 ++ sb.2)
            | _, .error e => (.internalError (jsMessage e), t1 ++ sa.2 ++ sb.2)
            | .ok rA, .ok rB =>
              let jobA := jsOrNull (respDataId rA)
              let jobB := jsOrNull (respDataId rB)
              (.okResp email (retainedPhone p != "") [listA, listB]
                  ([jobA, jobB].filterMap id) upres, t1 ++ sa.2 ++ sb.2)

/-! ### The `part_001` handler (sequential subscribes, structured logs) -/

/-- One structured log line of the `part_001` handler: message and the
key/value metadata passed to `log` (durations, payload sizes and timestamps
are not modelled). -/
structure P1LogEntry where
  msg : String
  meta : List (String × String)
deriving DecidableEq

/-- Environment variables the `part_001` handler reads (`env()` trims). -/
structure P1Env where
  apiKey : Option String := none
  privateKey : Option String := none
  list1 : Option String := none
  listA : Option String := none
  list2 : Option String := none
  listB : Option String := none
  bearer : Option String := none
  defaultCountry : Option String := none

/-- JavaScript `a || b` on strings (empty string is falsy). -/
def jsOrStr (a b : String) : String :=
  if a = "" then b else a

/-- `truncate(s, 500)` of `part_001` (the ellipsis literal is the file's). -/
def truncate500 (s : String) : String :=
  if 500 < s.length then s.take 500 ++ "â€¦" else s

/-- Rendering of a nullable string in log metadata. -/
def optVal : Option String → String
  | none => "null"
  | some s => s

/-- Output of one `part_001` `klaviyoRequest`: thrown message or parsed
body, the outbound calls, and the `klaviyo_call` log line. -/
structure P1CallOut where
  res : Except String ApiResponse
  calls : List Call
  logs : List P1LogEntry

/-- The `part_001` `klaviyoRequest`: throws on a missing key, logs every
call outcome (with a response-body preview), throws on non-2xx. -/
def klaviyoRequest_p1 (o : Oracle) (path method : String) (body : CallBody)
    (key : String) : P1CallOut :=
  if key = "" then ⟨.error "Missing KLAVIYO_API_KEY", [], []⟩
  else
    let c : Call := ⟨method, path, body⟩
    let r := o c
    let entry : P1LogEntry :=
      ⟨"klaviyo_call",
        [("method", method), ("path", path), ("status", toString r.status),
          ("respPreview", r.text.take 240)]⟩
    if replyOk r then ⟨.ok r.json, [c], [entry]⟩
    else
      ⟨.error ("Klaviyo " ++ method ++ " " ++ path ++ " " ++ toString r.status
          ++ ": " ++ truncate500 r.text), [c], [entry]⟩

/-- Per-list result of `part_001`'s `subscribeOnce`. -/
structure P1SubResult where
  listId : String
  id : Option String
  error : Option String
deriving DecidableEq

/-- `part_001`'s `subscribeOnce`: logs the start (with the raw email),
issues the job, and absorbs errors into the per-list result. -/
def subscribeOnce (o : Oracle) (email listId key label : String) :
    P1SubResult × List Call × List P1LogEntry :=
  let startLog : P1LogEntry :=
    ⟨"subscribe_start", [("label", label), ("listId", listId), ("email", email)]⟩
  let out :=
    klaviyoRequest_p1 o "/api/profile-subscription-bulk-create-jobs" "POST"
      (.subscribeJobP1 listId email) key
  match out.res with
  | .ok resp =>
    let id := jsOrNull (respDataId resp)
    (⟨listId, id, none⟩, out.calls,
      startLog :: out.logs ++
        [⟨"subscribe_ok",
          [("label", label), ("listId", listId), ("jobId", optVal id)]⟩])
  | .error m =>
    (⟨listId, none, some m⟩, out.calls,
      startLog :: out.logs ++
        [⟨"subscribe_err",
          [("label", label), ("listId", listId), ("error", m)]⟩])

/-- The `part_001` handler's responses. -/
inductive P1Response where
  | methodNotAllowed
  | unauthorized
  | missingEmail
  | skipped
  | missingEnv
  | result (status : String) (email : String) (lists : List String)
      (jobs : List String)
  | internalError (msg : String)
deriving DecidableEq

/-- The names of payload keys present in the request body. -/
def payloadKeys (p : Payload) : String :=
  String.intercalate ","
    (List.filterMap (fun kv => if kv.2 = FormValue.vUndefined then none else some kv.1)
      [("email", p.email), ("name", p.name), ("phone", p.phone),
        ("marketing", p.marketing), ("city", p.city), ("state", p.state),
        ("country", p.country), ("goal", p.goal), ("group", p.group),
        ("payment_method", p.payment_method), ("zip", p.zip)])

/-- The profile attributes `part_001` sends (no phone validation). -/
def builtAttrs_p1 (env : P1Env) (p : Payload) : ProfileAttributes :=
  let names := splitName (str p.name)
  let props := builtProperties p
  { email := pruneStr (str p.email)
    phone_number := pruneStr (str p.phone)
    first_name := pruneOpt names.first_name
    last_name := pruneOpt names.last_name
    location :=
      pruneList
        [("city", str p.city), ("region", str p.state),
          ("country", resolvedCountry (strOpt env.defaultCountry) p)]
    properties := if props.isEmpty then none else some props }

/-- The `part_001` handler (src/unnamed/part_001 lines 16-164): gates, skip
logging with the raw email, a single create call (no conflict recovery),
then sequential subscribes to both lists with per-list outcomes. -/
def handler_p1 (env : P1Env) (o : Oracle) (method : String)
    (auth : Option String) (p : Payload) :
    P1Response × List Call × List P1LogEntry :=
  if method ≠ "POST" then (.methodNotAllowed, [], [⟨"bad_method", [("method", method)]⟩])
  else
    let requiredBearer := strOpt env.bearer
    if requiredBearer ≠ "" ∧ auth.getD "" ≠ "Bearer " ++ requiredBearer then
      (.unauthorized, [], [⟨"unauthorized", []⟩])
    else
      let email := str p.email
      if email = "" then
        (.missingEmail, [], [⟨"missing_email", [("payloadKeys", payloadKeys p)]⟩])
      else if !isChecked p.marketing then
        (.skipped, [], [⟨"skip_no_marketing", [("email", email)]⟩])
      else
        let klaviyoKey := jsOrStr (strOpt env.apiKey) (strOpt env.privateKey)
        let list1 := jsOrStr (strOpt env.list1) (strOpt env.listA)
        let list2 := jsOrStr (strOpt env.list2) (strOpt env.listB)
        if klaviyoKey = "" ∨ list1 = "" ∨ list2 = "" then
          (.missingEnv, [], [⟨"missing_env", []⟩])
        else
          let attrs := builtAttrs_p1 env p
          let startLog : P1LogEntry :=
            ⟨"profiles_upsert_start",
              [("email", email), ("city", str p.city), ("region", str p.state),
                ("country", resolvedCountry (strOpt env.defaultCountry) p)]⟩
          let createOut :=
            klaviyoRequest_p1 o "/api/profiles" "POST" (.profileCreate attrs)
              klaviyoKey
          match createOut.res with
          | .error m =>
            (.internalError m, createOut.calls,
              startLog :: createOut.logs ++ [⟨"fatal", [("message", m)]⟩])
          | .ok _ =>
            let okLog : P1LogEntry := ⟨"profiles_upsert_ok", []⟩
            let (r1, c1, l1) := subscribeOnce o email list1 klaviyoKey "list1"
            let (r2, c2, l2) := subscribeOnce o email list2 klaviyoKey "list2"
            let okLists := [r1.id, r2.id].filterMap id
            let okCount := okLists.length
            let status :=
              if okCount = 2 then "ok" else if okCount = 1 then "partial"
              else "failed"
            (.result status email [list1, list2] okLists,
              createOut.calls ++ c1 ++ c2,
              startLog :: createOut.logs ++ [okLog] ++ l1 ++ l2 ++
                [⟨"done", [("email", email), ("okCount", toString okCount)]⟩])

/-! ### The `part_002` `klaviyo-subscribe` handler -/

/-- The payload of the `part_002` `klaviyo-subscribe` handler: the parsed
body's string fields (string-or-absent), plus the `marketing` flag which
`toBool` inspects as an arbitrary JavaScript value. -/
structure P2Payload where
  email : Option String := none
  name : Option String := none
  phone : Option String := none
  phone_number : Option String := none
  street1 : Option String := none
  address1 : Option String := none
  street2 : Option String := none
  address2 : Option String := none
  city : Option String := none
  state : Option String := none
  region : Option String := none
  zip : Option String := none
  postal_code : Option String := none
  postcode : Option String := none
  country : Option String := none
  goal : Option String := none
  group : Option String := none
  payment_method : Option String := none
  comments : Option String := none
  marketing : FormValue := .vUndefined

/-- JavaScript `a || b` on optional strings (undefined and `""` are falsy). -/
def jsOrOpt (a b : Option String) : Option String :=
  match a with
  | some s => if s = "" then b else some s
  | none => b

/-- A string field kept only when truthy (present and non-empty). -/
def optTruthy : Option String → Option String
  | none => none
  | some s => if s = "" then none else some s

/-- `x?.trim()`: optional chaining around `trim`. -/
def jsTrimOpt : Option String → Option String
  | none => none
  | some s => some (jsTrim s)

/-- `part_002`'s `splitName` lifted to an optional field (`!name` and the
`typeof` guard make absent values yield no names). -/
def splitName_p2_opt : Option String → NameParts
  | none => ⟨none, none⟩
  | some s => splitName_p2 s

/-- `buildProfileAttributes` of the `part_002` `klaviyo-subscribe` handler:
trimmed email, first truthy of `phone`/`phone_number`, last-boundary name
split, location and properties objects with empty values deleted, and the
client IP from the `x-forwarded-for` header. -/
def buildProfileAttributes (p : P2Payload) (xff : String) : P2Attrs :=
  let email := jsTrimOpt p.email
  let phone := jsOrOpt (jsTrimOpt p.phone) (jsTrimOpt p.phone_number)
  let names := splitName_p2_opt p.name
  let ip := optTruthy (some (jsTrim ((jsSplitChar ',' xff).headD "")))
  let locPairs : List (String × Option String) :=
    [("address1", jsOrOpt p.street1 p.address1),
      ("address2", jsOrOpt p.street2 p.address2), ("city", p.city),
      ("region", jsOrOpt p.state p.region),
      ("zip", jsOrOpt p.zip (jsOrOpt p.postal_code p.postcode)),
      ("country", p.country), ("ip", ip)]
  let propPairs : List (String × Option String) :=
    [("source", some "Shopify Fundraiser Request"),
      ("form", some "fundraiser-account-request"), ("fundraiser_goal", p.goal),
      ("school_group_name", p.group), ("payment_method", p.payment_method),
      ("comments", p.comments)]
  let keep := fun (l : List (String × Option String)) =>
    l.filterMap fun kv =>
      match kv.2 with
      | none => none
      | some s => if s = "" then none else some (kv.1, s)
  { email := email
    phone_number := optTruthy phone
    first_name := optTruthy names.first_name
    last_name := optTruthy names.last_name
    location := keep locPairs
    properties := keep propPairs }

/-- Result of one `part_002` `subscribeToList` call: `ok` is `status === 202`. -/
structure P2SubResult where
  ok : Bool
  status : Nat
deriving DecidableEq

/-- `part_002`'s `subscribeToList`: one subscribe-job POST per list. -/
def subscribeToList (o : Oracle) (listId : String) (attrs : P2Attrs) :
    P2SubResult × List Call :=
  let c : Call :=
    ⟨"POST", "/api/profile-subscription-bulk-create-jobs",
      .subscribeJobP2 listId attrs⟩
  let r := o c
  (⟨r.status == 202, r.status⟩, [c])

/-- The `part_002` `klaviyo-subscribe` handler's responses. -/
inductive P2Response where
  | methodNotAllowed
  | serverNotConfigured
  | skippedMissingEmail
  | skippedNoOptIn
  | result (ok : Bool) (status1 status2 : Nat)
deriving DecidableEq

/-- HTTP status code of each `part_002` `klaviyo-subscribe` response
(`res.status(...)` at each return site; both subscription outcomes give
`200` when both jobs were accepted, `207` otherwise). -/
def p2StatusCode : P2Response → Nat
  | .methodNotAllowed => 405
  | .serverNotConfigured => 500
  | .skippedMissingEmail => 200
  | .skippedNoOptIn => 200
  | .result ok _ _ => if ok then 200 else 207

/-- The missing-email guard of the `part_002` handler:
`!payload.email || String(payload.email).trim() === ''`. -/
def p2EmailMissing (p : P2Payload) : Bool :=
  match p.email with
  | none => true
  | some s => s = "" || jsTrim s = ""

/-- The `part_002` `klaviyo-subscribe` handler (src/unnamed/part_002 lines
320-388): method gate, configuration check, then — notably — a `200`
"skipped" response (not a `400`) when the email is missing, the `toBool`
opt-in gate, and two parallel subscribe jobs whose accepted/not-accepted
statuses decide `200` vs `207`. -/
def handler_p2 (apiKey list1 list2 : Option String) (o : Oracle)
    (method : String) (xff : String) (p : P2Payload) :
    P2Response × List Call :=
  if method ≠ "POST" then (.methodNotAllowed, [])
  else if apiKey.getD "" = "" ∨ list1.getD "" = "" ∨ list2.getD "" = "" then
    (.serverNotConfigured, [])
  else if p2EmailMissing p then (.skippedMissingEmail, [])
  else if !toBool_p2 p.marketing then (.skippedNoOptIn, [])
  else
    let attrs := buildProfileAttributes p xff
    let (r1, c1) := subscribeToList o (list1.getD "") attrs
    let (r2, c2) := subscribeToList o (list2.getD "") attrs
    (.result (r1.ok && r2.ok) r1.status r2.status, c1 ++ c2)

/-! ### Claim-level predicates -/

/-- A call that submits a subscription job in the primary handler's shape. -/
def isSubscribeCall (c : Call) : Bool :=
  match c.body with
  | .subscribeJob _ _ => true
  | _ => false

/-- The subscribe-job profile carried by a call, if any. -/
def subProfileOf (c : Call) : Option SubProfile :=
  match c.body with
  | .subscribeJob _ profile => some profile
  | _ => none

/-- The `phone_number` value carried in a call's body, if any. -/
def callPhoneNumber (c : Call) : Option String :=
  match c.body with
  | .profileCreate attrs => attrs.phone_number
  | .profilePatch _ attrs => attrs.phone_number
  | .subscribeJob _ profile => profile.phone_number
  | .subscribeJobP2 _ attrs => attrs.phone_number
  | .subscribeJobP1 _ _ => none
  | .noBody => none

/-- A lookup-by-email call: a GET on the email-filter path. -/
def isEmailLookupCall (email : String) (c : Call) : Bool :=
  c.method == "GET" && c.path == emailFilterPath email && c.body == .noBody

/-- The opt-in predicate exactly as the spec words it: the boolean `true`,
or a trimmed lower-cased string form among
`on`, `true`, `1`, `yes`, `y`, `checked`. -/
def specOptIn (v : FormValue) : Bool :=
  v == .vBool true ||
    ["on", "true", "1", "yes", "y", "checked"].contains (jsToLower (str v))

/-- The phone pattern exactly as the spec words it: `+` followed by 1-15
digits, the first digit 1-9. -/
def specE164 (s : String) : Bool :=
  match s.data with
  | '+' :: ds =>
    decide (1 ≤ ds.length) && decide (ds.length ≤ 15) &&
      ds.all Char.isDigit && (ds.headD '0') != '0'
  | _ => false

/-- The region-unsupported error shape as the spec words it: a client-error
status together with a "region ... not supported" detail or a validation
pointer referencing the phone field. -/
def isRegionUnsupportedReply (r : ApiReply) : Bool :=
  (decide (400 ≤ r.status) && decide (r.status < 500)) &&
    ((match r.detail with
      | some d => containsSub d "region" && containsSub d "not supported"
      | none => false) ||
     (match r.pointer with
      | some ptr => containsSub ptr "phone"
      | none => false))

/-- The email-only subscribe shape the claimed retry would produce. -/
def isEmailOnlySubscribe (c : Call) : Bool :=
  match subProfileOf c with
  | some profile => !profile.smsConsent
  | none => false

/-- The corrected phone pattern, stated structurally: a plus sign followed
by 2 to 15 digits whose first digit is nonzero (total length 3 to 16). -/
def e164Shape (s : String) : Bool :=
  decide (3 ≤ s.data.length) && decide (s.data.length ≤ 16) &&
    ((s.data.headD ' ') == '+') && ((s.data.drop 1).all Char.isDigit) &&
    (((s.data.drop 1).headD '0') != '0')

/-! ### Concrete fixtures -/

/-- An environment with no variables configured. -/
def envNone : Env := ⟨none, none, none, none, none⟩

/-- An environment with API key and both list ids configured. -/
def envK : Env := ⟨some "sk_test_key", some "LA", some "LB", none, none⟩

/-- A benign reply for calls whose outcome a scenario does not constrain. -/
def blandReply : ApiReply := ⟨200, "", .nullResp, none, none, none, none⟩

/-- An oracle whose replies are never an error (used by scenarios that end
before any call, where the transport is irrelevant). -/
def oDummy : Oracle := fun _ => blandReply

/-- Scenario payload for the SMS-region fallback claim: opted-in, with a
valid E.164 phone. -/
def c1Payload : Payload :=
  { email := .vStr "jane@example.com", name := .vStr "Jane Doe",
    phone := .vStr "+15551234567", marketing := .vStr "on",
    state := .vStr "CA" }

/-- A region-unsupported validation error, in the exact shape the spec
describes: client-error status, "region ... not supported" detail, and a
pointer into the phone field. -/
def regionReply : ApiReply :=
  ⟨400, "invalid phone region", .nullResp, none, some "invalid",
    some "SMS consent region not supported for this phone number",
    some "/data/attributes/profiles/data/0/attributes/phone_number"⟩

/-- Transport for the SMS-region scenario: create succeeds, the first
list's subscribe job is rejected with the region-unsupported error, the
second is accepted. -/
def c1Oracle : Oracle := fun c =>
  match c.body with
  | .profileCreate _ => ⟨201, "", .obj (some "PROF1"), none, none, none, none⟩
  | .subscribeJob lid _ =>
    if lid = "LA" then regionReply
    else ⟨202, "", .obj (some "JOB2"), none, none, none, none⟩
  | _ => blandReply

/-- The first list's subscribe call in the SMS-region scenario. -/
def c1SubCallA : Call :=
  ⟨"POST", "/api/profile-subscription-bulk-create-jobs",
    .subscribeJob "LA" (builtSubProfile c1Payload)⟩

/-- Attributes for the conflict scenarios: an email, no phone. -/
def attrsConflict : ProfileAttributes :=
  ⟨some "a@b.com", none, some "Jane", none, [], none⟩

/-- Transport for the conflict-with-duplicate-id scenario: create returns a
409 carrying `duplicate_profile_id = "DUP1"`; the lookup the code still
performs resolves a different id, which the code must ignore. -/
def c2Oracle : Oracle := fun c =>
  match c.body with
  | .profileCreate _ =>
    ⟨409, "duplicate profile", .nullResp, some "DUP1",
      some "duplicate_profile", none, none⟩
  | .profilePatch _ _ => ⟨200, "", .nullResp, none, none, none, none⟩
  | .noBody => ⟨200, "", .list ["OTHER9"], none, none, none, none⟩
  | _ => blandReply

/-- Transport for the conflict-without-duplicate-id scenario: create returns
a bare 409, lookups resolve `"ID1"`, patches succeed. -/
def c3Oracle : Oracle := fun c =>
  match c.body with
  | .profileCreate _ =>
    ⟨409, "duplicate profile", .nullResp, none, some "duplicate_profile",
      none, none⟩
  | .profilePatch _ _ => ⟨200, "", .nullResp, none, none, none, none⟩
  | .noBody => ⟨200, "", .list ["ID1"], none, none, none, none⟩
  | _ => blandReply

/-- Transport where profile creation simply succeeds. -/
def c10Oracle : Oracle := fun c =>
  match c.body with
  | .profileCreate _ => ⟨201, "", .obj (some "NEW1"), none, none, none, none⟩
  | _ => blandReply

/-- Scenario payload for the phone-validation claim: opted-in, with the
single-digit phone `"+7"` that the spec's stated pattern accepts. -/
def c7Payload : Payload :=
  { email := .vStr "a@b.com", marketing := .vStr "on", phone := .vStr "+7" }

/-- Scenario payload for the redaction claim: opted-in declined. -/
def c9Payload : Payload :=
  { email := .vStr "jane@example.com", marketing := .vStr "no" }

/-- Environment for the `part_001` handler scenario. -/
def c9Env : P1Env :=
  { apiKey := some "sk_secret", list1 := some "L1", list2 := some "L2" }

/-- A payload with no fields present. -/
def emptyPayload : Payload := {}

/-- A `part_002` payload with no fields present. -/
def p2Empty : P2Payload := {}

/-! ### Shared lemmas about outbound-call traces -/

theorem klaviyoRequest_snd (env : Env) (o : Oracle) (m pth : String)
    (b : CallBody) :
    (klaviyoRequest env o m pth b).2 = [] ∨
      (klaviyoRequest env o m pth b).2 = [⟨m, pth, b⟩] := by
  unfold klaviyoRequest
  by_cases hk : env.apiKey.getD "" = ""
  · simp [hk]
  · by_cases hr : replyOk (o ⟨m, pth, b⟩) = true <;> simp [hk, hr]


theorem klaviyoRequest_mem (env : Env) (o : Oracle) (m pth : String)
    (b : CallBody) (res : Except JsError ApiResponse) (t : List Call)
    (h : klaviyoRequest env o m pth b = (res, t)) :
    ∀ c ∈ t, c = ⟨m, pth, b⟩ := by
  intro c hc
  have ht : t = (klaviyoRequest env o m pth b).2 := by rw [h]
  rw [ht] at hc
  rcases klaviyoRequest_snd env o m pth b with h0 | h0 <;> rw [h0] at hc
  · exact absurd hc (List.not_mem_nil c)
  · simpa using hc

theorem diagnoseDuplicate_mem (env : Env) (o : Oracle)
    (attrs : ProfileAttributes) (c : Call)
    (h : c ∈ diagnoseDuplicate env o attrs) : c.body = .noBody := by
  unfold diagnoseDuplicate at h
  rcases List.mem_append.mp h with h1 | h1 <;>
    · split at h1
      · exact absurd h1 (List.not_mem_nil c)
      · rw [klaviyoRequest_mem _ _ _ _ _ _ _ rfl _ h1]

theorem getProfileIdByEmail_mem (env : Env) (o : Oracle) (e : String)
    (res : Except JsError (Option String)) (t : List Call)
    (h : getProfileIdByEmail env o e = (res, t)) :
    ∀ c ∈ t, c.body = .noBody := by
  intro c hc
  have ht : t = (getProfileIdByEmail env o e).2 := by rw [h]
  rw [ht] at hc
  unfold getProfileIdByEmail at hc
  split at hc
  · exact absurd hc (List.not_mem_nil c)
  · split at hc <;>
      · rename_i heq
        have h2 : _ = (klaviyoRequest env o "GET" (emailFilterPath e) .noBody).2 :=
          (congrArg Prod.snd heq).symm
        rw [h2] at hc
        rw [klaviyoRequest_mem _ _ _ _ _ _ _ rfl _ hc]

theorem patchProfile_mem (env : Env) (o : Oracle) (i : String)
    (attrs : ProfileAttributes) (res : Except JsError Unit) (t : List Call)
    (h : patchProfile env o i attrs = (res, t)) :
    ∀ c ∈ t, c.body = .profilePatch i attrs := by
  intro c hc
  have ht : t = (patchProfile env o i attrs).2 := by rw [h]
  rw [ht] at hc
  unfold patchProfile at hc
  split at hc <;>
    · rename_i heq
      have h2 : _ =
          (klaviyoRequest env o "PATCH" ("/api/profiles/" ++ i)
            (.profilePatch i attrs)).2 :=
        (congrArg Prod.snd heq).symm
      rw [h2] at hc
      rw [klaviyoRequest_mem _ _ _ _ _ _ _ rfl _ hc]

theorem upsertProfile_mem (env : Env) (o : Oracle)
    (attrs : ProfileAttributes) (c : Call)
    (h : c ∈ (upsertProfile env o attrs).2) :
    c.body = .profileCreate attrs ∨ c.body = .noBody ∨
      ∃ i, c.body = .profilePatch i attrs := by
  unfold upsertProfile at h
  split at h
  · rename_i resp t1 heq
    exact Or.inl (congrArg Call.body (klaviyoRequest_mem _ _ _ _ _ _ _ heq _ h))
  · rename_i m t1 heq
    exact Or.inl (congrArg Call.body (klaviyoRequest_mem _ _ _ _ _ _ _ heq _ h))
  · rename_i r method pth t1 heq
    split at h
    · split at h
      · split at h <;>
          · rename_i dId heq1 u t3 heq2
            rcases List.mem_append.mp h with h1 | h1
            · rcases List.mem_append.mp h1 with h2 | h2
              · exact Or.inl
                  (congrArg Call.body (klaviyoRequest_mem _ _ _ _ _ _ _ heq _ h2))
              · exact Or.inr (Or.inl (diagnoseDuplicate_mem _ _ _ _ h2))
            · exact Or.inr (Or.inr ⟨_, patchProfile_mem _ _ _ _ _ _ heq2 _ h1⟩)
      · split at h
        · rename_i heq1 e2 t3 heq2
          rcases List.mem_append.mp h with h1 | h1
          · rcases List.mem_append.mp h1 with h2 | h2
            · exact Or.inl
                (congrArg Call.body (klaviyoRequest_mem _ _ _ _ _ _ _ heq _ h2))
            · exact Or.inr (Or.inl (diagnoseDuplicate_mem _ _ _ _ h2))
          · exact Or.inr (Or.inl (getProfileIdByEmail_mem _ _ _ _ _ heq2 _ h1))
        · rename_i heq1 t3 heq2
          rcases List.mem_append.mp h with h1 | h1
          · rcases List.mem_append.mp h1 with h2 | h2
            · exact Or.inl
                (congrArg Call.body (klaviyoRequest_mem _ _ _ _ _ _ _ heq _ h2))
            · exact Or.inr (Or.inl (diagnoseDuplicate_mem _ _ _ _ h2))
          · exact Or.inr (Or.inl (getProfileIdByEmail_mem _ _ _ _ _ heq2 _ h1))
        · rename_i heq1 i t3 heq2
          split at h <;>
            · rename_i u t4 heq3
              rcases List.mem_append.mp h with h1 | h1
              · rcases List.mem_append.mp h1 with h2 | h2
                · rcases List.mem_append.mp h2 with h4 | h4
                  · exact Or.inl
                      (congrArg Call.body
                        (klaviyoRequest_mem _ _ _ _ _ _ _ heq _ h4))
                  · exact Or.inr (Or.inl (diagnoseDuplicate_mem _ _ _ _ h4))
                · exact Or.inr (Or.inl (getProfileIdByEmail_mem _ _ _ _ _ heq2 _ h2))
              · exact Or.inr (Or.inr ⟨_, patchProfile_mem _ _ _ _ _ _ heq3 _ h1⟩)
    · exact Or.inl (congrArg Call.body (klaviyoRequest_mem _ _ _ _ _ _ _ heq _ h))

theorem handler_snd_cases (env : Env) (o : Oracle) (m : String)
    (a : Option String) (p : Payload) :
    (handler env o m a p).2 = [] ∨
      (handler env o m a p).2 = (upsertProfile env o (builtAttrs env p)).2 ∨
      (handler env o m a p).2 =
        (upsertProfile env o (builtAttrs env p)).2 ++
          (klaviyoRequest env o "POST" subJobsPath
            (.subscribeJob (strOpt env.list1) (builtSubProfile p))).2 ++
          (klaviyoRequest env o "POST" subJobsPath
            (.subscribeJob (strOpt env.list2) (builtSubProfile p))).2 := by
  by_cases hm : m = "POST"
  case neg => exact Or.inl (by simp [handler, hm])
  case pos =>
  by_cases hb : env.bearer.getD "" ≠ "" ∧ a.getD "" ≠ "Bearer " ++ env.bearer.getD ""
  · exact Or.inl (by simp [handler, hm, hb])
  · by_cases he : str p.email = ""
    · exact Or.inl (by simp [handler, hm, hb, he])
    · by_cases hc : isChecked p.marketing
      case neg => exact Or.inl (by simp [handler, hm, hb, he, hc])
      case pos =>
      rcases hup : upsertProfile env o (builtAttrs env p) with ⟨res, t1⟩
      cases res with
      | error e =>
        exact Or.inr (Or.inl (by simp [handler, hm, hb, he, hc, hup]))
      | ok upres =>
        by_cases hl : strOpt env.list1 = "" ∨ strOpt env.list2 = ""
        · exact Or.inr (Or.inl (by simp [handler, hm, hb, he, hc, hup, hl]))
        · refine Or.inr (Or.inr ?_)
          rcases hsa : (klaviyoRequest env o "POST" subJobsPath
              (.subscribeJob (strOpt env.list1) (builtSubProfile p))).1 with e | rA
          · simp [handler, hm, hb, he, hc, hup, hl, hsa]
          · rcases hsb : (klaviyoRequest env o "POST" subJobsPath
                (.subscribeJob (strOpt env.list2) (builtSubProfile p))).1 with e | rB
            · simp [handler, hm, hb, he, hc, hup, hl, hsa, hsb]
            · simp [handler, hm, hb, he, hc, hup, hl, hsa, hsb]

theorem isE164_eq_shape (v : String) : isE164Phone v = e164Shape (jsTrim v) := by
  unfold isE164Phone e164Shape
  generalize (jsTrim v).data = l
  match l with
  | [] => rfl
  | [c0] => rfl
  | c0 :: c1 :: rest =>
    have h1 : decide (3 ≤ (c0 :: c1 :: rest).length) = decide (1 ≤ rest.length) := by
      simp only [List.length_cons]
      exact decide_eq_decide.mpr (by omega)
    have h2 : decide ((c0 :: c1 :: rest).length ≤ 16) = decide (rest.length ≤ 14) := by
      simp only [List.length_cons]
      exact decide_eq_decide.mpr (by omega)
    simp only [h1, h2, List.headD_cons, List.drop_succ_cons, List.drop_zero,
      List.all_cons]
    cases c0 == '+' <;> cases c1.isDigit <;> cases c1 != '0' <;>
      cases decide (1 ≤ rest.length) <;> cases decide (rest.length ≤ 14) <;>
      cases rest.all Char.isDigit <;> rfl

theorem handler_calls_shape (env : Env) (o : Oracle) (m : String)
    (a : Option String) (p : Payload) (c : Call)
    (h : c ∈ (handler env o m a p).2) :
    c.body = .profileCreate (builtAttrs env p) ∨ c.body = .noBody ∨
      (∃ i, c.body = .profilePatch i (builtAttrs env p)) ∨
      ∃ lid, c.body = .subscribeJob lid (builtSubProfile p) := by
  have hup : c ∈ (upsertProfile env o (builtAttrs env p)).2 →
      c.body = .profileCreate (builtAttrs env p) ∨ c.body = .noBody ∨
        (∃ i, c.body = .profilePatch i (builtAttrs env p)) ∨
        ∃ lid, c.body = .subscribeJob lid (builtSubProfile p) := by
    intro h1
    rcases upsertProfile_mem env o _ c h1 with h2 | h2 | h2
    · exact Or.inl h2
    · exact Or.inr (Or.inl h2)
    · exact Or.inr (Or.inr (Or.inl h2))
  have hkr : ∀ lid, c ∈ (klaviyoRequest env o "POST" subJobsPath
      (.subscribeJob lid (builtSubProfile p))).2 →
      ∃ lid2, c.body = .subscribeJob lid2 (builtSubProfile p) := by
    intro lid h1
    rcases klaviyoRequest_snd env o "POST" subJobsPath
        (.subscribeJob lid (builtSubProfile p)) with hk | hk <;> rw [hk] at h1
    · exact absurd h1 (List.not_mem_nil c)
    · exact ⟨lid, congrArg Call.body (List.mem_singleton.mp h1)⟩
  rcases handler_snd_cases env o m a p with h0 | h0 | h0 <;> rw [h0] at h
  · exact absurd h (List.not_mem_nil c)
  · exact hup h
  · rcases List.mem_append.mp h with h1 | h1
    · rcases List.mem_append.mp h1 with h2 | h2
      · exact hup h2
      · exact Or.inr (Or.inr (Or.inr (hkr _ h2)))
    · exact Or.inr (Or.inr (Or.inr (hkr _ h1)))

/-! ### C1 — SMS region-unsupported fallback -/

/-- C1 counterexample: with the create call succeeding and list LA's
subscription rejected by exactly the region-unsupported error shape the
claim describes, the primary handler issues no email-only retry (zero
subscribe calls without SMS consent), keeps both original SMS-bearing
subscribe calls, and fails the whole request with a 500 — the claimed
retried email-only outcome never exists. -/
theorem klaviyo_C1_counterexample :
    isRegionUnsupportedReply (c1Oracle c1SubCallA) = true ∧
      (builtSubProfile c1Payload).smsConsent = true ∧
      hStatusCode (handler envK c1Oracle "POST" none c1Payload).1 = 500 ∧
      (handler envK c1Oracle "POST" none c1Payload).2.countP
        isEmailOnlySubscribe = 0 ∧
      (handler envK c1Oracle "POST" none c1Payload).2.countP
        isSubscribeCall = 2 := by
  decide

/-- C1 (amended): the primary handler never retries a list subscription.
Every subscribe call it issues — for any transport behaviour — carries the
single profile built from the payload, whose SMS consent is present exactly
when a valid phone was retained, and at most two subscribe calls are made;
a region-unsupported subscription error is therefore surfaced (as an
internal error), never absorbed by an SMS-omitted retry. -/
theorem klaviyo_C1_no_sms_retry (env : Env) (o : Oracle) (m : String)
    (a : Option String) (p : Payload) :
    (∀ c ∈ (handler env o m a p).2, ∀ prof, subProfileOf c = some prof →
      prof = builtSubProfile p) ∧
      (handler env o m a p).2.countP isSubscribeCall ≤ 2 := by
  constructor
  · intro c hc prof hprof
    rcases handler_calls_shape env o m a p c hc with h | h | ⟨i, h⟩ | ⟨lid, h⟩ <;>
      simp [subProfileOf, h] at hprof
    exact hprof.symm
  · have hupz : (upsertProfile env o (builtAttrs env p)).2.countP
        isSubscribeCall = 0 := by
      rw [List.countP_eq_zero]
      intro c hc
      rcases upsertProfile_mem env o _ c hc with h | h | ⟨i, h⟩ <;>
        simp [isSubscribeCall, h]
    have hkrz : ∀ lid, (klaviyoRequest env o "POST" subJobsPath
        (.subscribeJob lid (builtSubProfile p))).2.countP isSubscribeCall ≤ 1 := by
      intro lid
      rcases klaviyoRequest_snd env o "POST" subJobsPath
          (.subscribeJob lid (builtSubProfile p)) with hk | hk <;> rw [hk] <;>
        simp [List.countP_cons, isSubscribeCall]
    rcases handler_snd_cases env o m a p with h0 | h0 | h0 <;> rw [h0]
    · simp
    · rw [hupz]
      omega
    · rw [List.countP_append, List.countP_append, hupz]
      have h1 := hkrz (strOpt env.list1)
      have h2 := hkrz (strOpt env.list2)
      omega

/-- Witness for C1 (amended) at the concrete region-error scenario. -/
theorem klaviyo_C1_no_sms_retry_witness :
    ((⟨"jane@example.com", some "+15551234567", true⟩ : SubProfile) =
        builtSubProfile c1Payload) ∧
      (handler envK c1Oracle "POST" none c1Payload).2.countP
        isSubscribeCall ≤ 2 := by
  have h := klaviyo_C1_no_sms_retry envK c1Oracle "POST" none c1Payload
  refine ⟨?_, h.2⟩
  exact h.1 ⟨"POST", subJobsPath, .subscribeJob "LA"
      ⟨"jane@example.com", some "+15551234567", true⟩⟩ (by decide)
    ⟨"jane@example.com", some "+15551234567", true⟩ (by decide)

/-! ### C7 — E.164 phone validation -/

/-- C7 counterexample: `"+7"` matches the spec's stated pattern (`+` then
1-15 digits, first digit 1-9) but the code's `/^\+[1-9]\d{1,14}$/` requires
at least two digits, so the phone is discarded: the create attributes carry
no `phone_number`, SMS consent is off, and the request still succeeds. -/
theorem klaviyo_C7_counterexample :
    specE164 "+7" = true ∧ isE164Phone "+7" = false ∧
      (builtAttrs envK c7Payload).phone_number = none ∧
      (builtSubProfile c7Payload).smsConsent = false ∧
      hStatusCode (handler envK oDummy "POST" none c7Payload).1 = 200 := by
  decide

/-- C7 (amended): the retained phone is characterised by the corrected
pattern — a `+` followed by 2 to 15 digits with a nonzero first digit — and
whenever the submitted phone fails that pattern, no outbound call of the
request carries any `phone_number` value, while the request itself is not
rejected on that account. -/
theorem klaviyo_C7_phone_validation (env : Env) (o : Oracle)
    (a : Option String) (p : Payload) :
    isE164Phone (str p.phone) = e164Shape (jsTrim (str p.phone)) ∧
      (isE164Phone (str p.phone) = false →
        ∀ c ∈ (handler env o "POST" a p).2, callPhoneNumber c = none) := by
  refine ⟨isE164_eq_shape (str p.phone), ?_⟩
  intro hfalse c hc
  have hret : retainedPhone p = "" := by simp [retainedPhone, hfalse]
  rcases handler_calls_shape env o "POST" a p c hc with h | h | ⟨i, h⟩ | ⟨lid, h⟩ <;>
    simp [callPhoneNumber, h, builtAttrs, builtSubProfile, pruneStr, hret]

/-- Witness for C7 (amended) at the concrete `"+7"` scenario. -/
theorem klaviyo_C7_phone_validation_witness :
    isE164Phone (str c7Payload.phone) = false ∧
      callPhoneNumber
        ⟨"POST", "/api/profiles", .profileCreate (builtAttrs envK c7Payload)⟩ =
        none := by
  have h := klaviyo_C7_phone_validation envK oDummy none c7Payload
  exact ⟨by decide, h.2 (by decide) _ (by decide)⟩

/-! ### C4 — opt-in token set -/

/-- C4 counterexample: the spec's token set accepts `"checked"`, but the
primary handler's `isChecked` rejects it; the `part_002` `toBool` likewise
rejects `"y"`, which the primary handler accepts. -/
theorem klaviyo_C4_counterexample :
    specOptIn (.vStr "checked") = true ∧ isChecked (.vStr "checked") = false ∧
      toBool_p2 (.vStr "y") = false ∧ isChecked (.vStr "y") = true := by
  decide

/-- C4 (amended): the primary handler's opt-in evaluation is affirmative
exactly for the boolean `true` or a trimmed lower-cased string form among
`on`, `true`, `1`, `yes`, `y` (without `checked`); the `part_001` variant's
evaluation matches the claimed six-token set exactly. -/
theorem klaviyo_C4_optin_tokens (v : FormValue) :
    (isChecked v = true ↔
      (v = FormValue.vBool true ∨
        jsToLower (str v) ∈ ["on", "true", "1", "yes", "y"])) ∧
      (isChecked_p1 v = true ↔
        (v = FormValue.vBool true ∨
          jsToLower (str v) ∈ ["on", "true", "1", "yes", "y", "checked"])) := by
  constructor
  · constructor
    · intro h
      simp only [isChecked] at h
      exact Or.inr (List.elem_iff.mp h)
    · rintro (rfl | h)
      · decide
      · simp only [isChecked]
        exact List.elem_iff.mpr h
  · constructor
    · intro h
      simp only [isChecked_p1] at h
      exact Or.inr (List.elem_iff.mp h)
    · rintro (rfl | h)
      · decide
      · simp only [isChecked_p1]
        exact List.elem_iff.mpr h

/-- Witness for C4 (amended): the boolean `true` and the `part_001`
`"CHECKED"` token are both affirmative. -/
theorem klaviyo_C4_optin_tokens_witness :
    isChecked (FormValue.vBool true) = true ∧
      isChecked_p1 (FormValue.vStr "CHECKED") = true := by
  have h := klaviyo_C4_optin_tokens (FormValue.vBool true)
  have h2 := klaviyo_C4_optin_tokens (FormValue.vStr "CHECKED")
  exact ⟨h.1.mpr (Or.inl rfl), h2.2.mpr (Or.inr (by decide))⟩

/-! ### C8 — name splitting -/

theorem wsTokensAux_mem_ne (l : List Char) :
    ∀ (cur : List Char) (x : String), x ∈ wsTokensAux l cur → x.data ≠ [] := by
  induction l with
  | nil =>
    intro cur x hx
    unfold wsTokensAux at hx
    split at hx
    · exact absurd hx (List.not_mem_nil x)
    · rename_i hcur
      rw [List.mem_singleton.mp hx]
      show cur.reverse ≠ []
      intro hh
      exact hcur (List.isEmpty_iff.mpr (List.reverse_eq_nil_iff.mp hh))
  | cons c rest ih =>
    intro cur x hx
    unfold wsTokensAux at hx
    split at hx
    · split at hx
      · exact ih [] x hx
      · rename_i hcur
        rcases List.mem_cons.mp hx with h | h
        · rw [h]
          show cur.reverse ≠ []
          intro hh
          exact hcur (List.isEmpty_iff.mpr (List.reverse_eq_nil_iff.mp hh))
        · exact ih [] x h
    · exact ih (c :: cur) x hx

theorem filter_jsSplitWS (s : String) :
    (jsSplitWS s).filter (fun t => t != "") = wsTokens s := by
  unfold jsSplitWS
  by_cases h : s.data.isEmpty = true
  · have h0 : s.data = [] := List.isEmpty_iff.mp h
    rw [if_pos h]
    show List.filter (fun t => t != "") [""] = wsTokens s
    simp [wsTokens, h0, wsTokensAux]
  · rw [if_neg h, List.filter_append, List.filter_append]
    have htok : (wsTokens s).filter (fun t => t != "") = wsTokens s := by
      apply List.filter_eq_self.mpr
      intro x hx
      have hne : x ≠ "" := by
        intro hh
        exact wsTokensAux_mem_ne s.data [] x hx (hh ▸ rfl)
      exact bne_iff_ne.mpr hne
    have h1 : (if (s.data.headD ' ').isWhitespace then [""]
        else ([] : List String)).filter (fun t => t != "") = [] := by
      split <;> simp
    have h2 : (if (s.data.getLastD ' ').isWhitespace then [""]
        else ([] : List String)).filter (fun t => t != "") = [] := by
      split <;> simp
    rw [h1, h2, htok, List.nil_append, List.append_nil]

/-- C8 counterexample: on `"Jane Mary Doe"` the cited `part_002` variant
assigns `"Jane Mary"` — not the first whitespace-delimited token — to
`first_name`; and on `"A B  C"` the primary `splitName` gives last name
`"B C"`, not the literal remainder `"B  C"`. -/
theorem klaviyo_C8_counterexample :
    splitName_p2 "Jane Mary Doe" = ⟨some "Jane Mary", some "Doe"⟩ ∧
      splitName "Jane Mary Doe" = ⟨some "Jane", some "Mary Doe"⟩ ∧
      splitName "A B  C" = ⟨some "A", some "B C"⟩ ∧
      ("Jane Mary" : String) ≠ "Jane" ∧ ("B C" : String) ≠ "B  C" := by
  decide

/-- C8 (amended): for every input with at least one whitespace-delimited
token, the primary handler's `splitName` assigns the first token to
`first_name` and the remaining tokens, joined by single spaces, to
`last_name` (absent when there is only one token). -/
theorem klaviyo_C8_splitName (full t : String) (ts : List String)
    (htok : wsTokens full = t :: ts) :
    splitName full =
      ⟨some t, if ts = [] then none else some (String.intercalate " " ts)⟩ := by
  have hne : full ≠ "" := by
    intro hh
    have h0 : wsTokens "" = [] := rfl
    rw [hh, h0] at htok
    exact absurd htok (by simp)
  unfold splitName
  rw [if_neg hne, filter_jsSplitWS, htok]
  cases ts with
  | nil => rfl
  | cons h2 t2 => rfl

/-- Witness for C8 (amended) at `"Jane Doe"`. -/
theorem klaviyo_C8_splitName_witness :
    splitName "Jane Doe" = ⟨some "Jane", some "Doe"⟩ := by
  have h := klaviyo_C8_splitName "Jane Doe" "Jane" ["Doe"] (by decide)
  rw [h]
  decide

/-! ### C5 — skip without consent -/

/-- C5 (confirmed): for every POST request that passes the auth gate with a
non-empty email but a non-affirmative opt-in value, the primary handler
returns the 200 "skipped" response and performs no outbound call. -/
theorem klaviyo_C5_skip_no_calls (env : Env) (o : Oracle) (a : Option String)
    (p : Payload)
    (hauth : env.bearer.getD "" = "" ∨
      a.getD "" = "Bearer " ++ env.bearer.getD "")
    (hemail : str p.email ≠ "") (hopt : isChecked p.marketing = false) :
    handler env o "POST" a p = (.skipped, []) ∧ hStatusCode .skipped = 200 := by
  constructor
  · have hb : ¬(env.bearer.getD "" ≠ "" ∧
        a.getD "" ≠ "Bearer " ++ env.bearer.getD "") := by
      rcases hauth with h | h
      · exact fun hc => hc.1 h
      · exact fun hc => hc.2 h
    simp [handler, hb, hemail, hopt]
  · rfl

/-- Witness for C5 at a declined concrete payload. -/
theorem klaviyo_C5_skip_no_calls_witness :
    handler envNone oDummy "POST" none c9Payload = (.skipped, []) := by
  exact (klaviyo_C5_skip_no_calls envNone oDummy none c9Payload (Or.inl rfl)
    (by decide) (by decide)).1

/-! ### C6 — missing-email handling -/

/-- C6 counterexample: the cited `part_002` `klaviyo-subscribe` handler
answers a configured POST with a missing email by a 200 "skipped" response,
not the claimed 400 bad-request (though it, too, makes no outbound call). -/
theorem klaviyo_C6_counterexample :
    handler_p2 (some "k") (some "LA") (some "LB") oDummy "POST" "" p2Empty =
      (.skippedMissingEmail, []) ∧
      p2StatusCode .skippedMissingEmail = 200 := by
  decide

/-- C6 (amended): when the email is absent or blank after trimming, the
primary handler returns the 400 bad-request response with no outbound call
(for any other field values, once the auth gate passes), while the
`part_002` `klaviyo-subscribe` variant returns a 200 "skipped"
missing-email response, also with no outbound call. -/
theorem klaviyo_C6_missing_email (env : Env) (o : Oracle) (a : Option String)
    (p : Payload) (k l1 l2 : Option String) (o2 : Oracle) (xff : String)
    (pp : P2Payload)
    (hauth : env.bearer.getD "" = "" ∨
      a.getD "" = "Bearer " ++ env.bearer.getD "")
    (hemail : str p.email = "")
    (hk : k.getD "" ≠ "") (hl1 : l1.getD "" ≠ "") (hl2 : l2.getD "" ≠ "")
    (he2 : p2EmailMissing pp = true) :
    (handler env o "POST" a p = (.missingEmail, []) ∧
      hStatusCode .missingEmail = 400) ∧
      handler_p2 k l1 l2 o2 "POST" xff pp = (.skippedMissingEmail, []) ∧
      p2StatusCode .skippedMissingEmail = 200 := by
  refine ⟨⟨?_, rfl⟩, ?_, rfl⟩
  · have hb : ¬(env.bearer.getD "" ≠ "" ∧
        a.getD "" ≠ "Bearer " ++ env.bearer.getD "") := by
      rcases hauth with h | h
      · exact fun hc => hc.1 h
      · exact fun hc => hc.2 h
    simp [handler, hb, hemail]
  · have hcfg : ¬(k.getD "" = "" ∨ l1.getD "" = "" ∨ l2.getD "" = "") := by
      rintro (h | h | h)
      · exact hk h
      · exact hl1 h
      · exact hl2 h
    simp [handler_p2, hcfg, he2]

/-- Witness for C6 (amended) at concrete empty payloads. -/
theorem klaviyo_C6_missing_email_witness :
    handler envNone oDummy "POST" none emptyPayload = (.missingEmail, []) ∧
      handler_p2 (some "k") (some "LA") (some "LB") oDummy "POST" ""
        { name := some "Jane Doe" } = (.skippedMissingEmail, []) := by
  have h := klaviyo_C6_missing_email envNone oDummy none emptyPayload
    (some "k") (some "LA") (some "LB") oDummy "" { name := some "Jane Doe" }
    (Or.inl rfl) (by decide) (by decide) (by decide) (by decide) (by decide)
  exact ⟨h.1.1, h.2.1⟩


theorem klaviyoRequest_snd_key (env : Env) (o : Oracle) (m pth : String)
    (b : CallBody) (hkey : env.apiKey.getD "" ≠ "") :
    (klaviyoRequest env o m pth b).2 = [⟨m, pth, b⟩] := by
  unfold klaviyoRequest
  by_cases hr : replyOk (o ⟨m, pth, b⟩) = true <;> simp [hkey, hr]

/-! ### C2 / C3 — conflict recovery -/

/-- C2 counterexample: on a 409 whose metadata carries
`duplicate_profile_id = "DUP1"`, the upsert does patch exactly that id and
reports `created=false, patched=true` — but it still performs one
lookup-by-email call (the `diagnoseDuplicate` diagnostic) before returning,
where the claim requires none. -/
theorem klaviyo_C2_counterexample :
    (upsertProfile envK c2Oracle attrsConflict).1 =
        .ok ⟨false, true, some "DUP1"⟩ ∧
      (upsertProfile envK c2Oracle attrsConflict).2.countP
        (isEmailLookupCall "a@b.com") = 1 := by
  decide

/-- C2 (amended): on a 409 carrying a duplicate-profile id `d`, the upsert
patches exactly `d` (whatever any lookup would have answered) and returns
`created=false, patched=true, profileId=d`; the outbound calls are exactly
the create, one diagnostic lookup-by-email, and the patch of `d` — so one
lookup-by-email call is made, though its result is not used to choose the
id. (Phone-free attributes; with a phone an extra phone-filter diagnostic
lookup occurs.) -/
theorem klaviyo_C2_conflict_with_dup (env : Env) (o : Oracle)
    (attrs : ProfileAttributes) (d : String)
    (hkey : env.apiKey.getD "" ≠ "")
    (hstatus : (o ⟨"POST", "/api/profiles", .profileCreate attrs⟩).status = 409)
    (hdup : jsOrNull (o ⟨"POST", "/api/profiles",
      .profileCreate attrs⟩).dupId = some d)
    (hemail : strOpt attrs.email ≠ "")
    (hphone : strOpt attrs.phone_number = "")
    (hpatch : replyOk (o ⟨"PATCH", "/api/profiles/" ++ d,
      .profilePatch d attrs⟩) = true) :
    upsertProfile env o attrs =
      (.ok ⟨false, true, some d⟩,
        [⟨"POST", "/api/profiles", .profileCreate attrs⟩,
          ⟨"GET", emailFilterPath (strOpt attrs.email), .noBody⟩,
          ⟨"PATCH", "/api/profiles/" ++ d, .profilePatch d attrs⟩]) := by
  have hro : replyOk (o ⟨"POST", "/api/profiles", .profileCreate attrs⟩)
      = false := by
    simp [replyOk, hstatus]
  have hkr : klaviyoRequest env o "POST" "/api/profiles" (.profileCreate attrs)
      = (.error (.kl (o ⟨"POST", "/api/profiles", .profileCreate attrs⟩)
          "POST" "/api/profiles"),
        [⟨"POST", "/api/profiles", .profileCreate attrs⟩]) := by
    simp [klaviyoRequest, hkey, hro]
  have hdd : diagnoseDuplicate env o attrs =
      [⟨"GET", emailFilterPath (strOpt attrs.email), .noBody⟩] := by
    simp only [diagnoseDuplicate]
    rw [if_neg hemail, if_pos hphone, klaviyoRequest_snd_key env o "GET"
      (emailFilterPath (strOpt attrs.email)) .noBody hkey]
    simp
  have hpp : patchProfile env o d attrs =
      (.ok (), [⟨"PATCH", "/api/profiles/" ++ d, .profilePatch d attrs⟩]) := by
    simp [patchProfile, klaviyoRequest, hkey, hpatch]
  simp [upsertProfile, hkr, hstatus, hdup, hdd, hpp]

/-- Witness for C2 (amended) at the concrete conflict scenario. -/
theorem klaviyo_C2_conflict_with_dup_witness :
    upsertProfile envK c2Oracle attrsConflict =
      (.ok ⟨false, true, some "DUP1"⟩,
        [⟨"POST", "/api/profiles", .profileCreate attrsConflict⟩,
          ⟨"GET", emailFilterPath (strOpt attrsConflict.email), .noBody⟩,
          ⟨"PATCH", "/api/profiles/" ++ "DUP1",
            .profilePatch "DUP1" attrsConflict⟩]) :=
  klaviyo_C2_conflict_with_dup envK c2Oracle attrsConflict "DUP1" (by decide)
    (by decide) (by decide) (by decide) (by decide) (by decide)

/-- C3 counterexample: on a 409 without a duplicate id, the upsert resolves
`"ID1"` and patches it, but performs two lookup-by-email calls (diagnostic
plus resolving), where the claim requires exactly one. -/
theorem klaviyo_C3_counterexample :
    (upsertProfile envK c3Oracle attrsConflict).1 =
        .ok ⟨false, true, some "ID1"⟩ ∧
      (upsertProfile envK c3Oracle attrsConflict).2.countP
        (isEmailLookupCall "a@b.com") = 2 := by
  decide

/-- C3 (amended): on a 409 without a duplicate-profile id, the upsert
performs exactly two lookup-by-email calls — the `diagnoseDuplicate`
diagnostic and the resolving `getProfileIdByEmail` — and patches the id the
resolving lookup returned, reporting `created=false, patched=true` with that
id. (Phone-free attributes; with a phone an extra phone-filter diagnostic
lookup occurs.) -/
theorem klaviyo_C3_conflict_without_dup (env : Env) (o : Oracle)
    (attrs : ProfileAttributes) (ids : List String) (i : String)
    (hkey : env.apiKey.getD "" ≠ "")
    (hstatus : (o ⟨"POST", "/api/profiles", .profileCreate attrs⟩).status = 409)
    (hdup : jsOrNull (o ⟨"POST", "/api/profiles",
      .profileCreate attrs⟩).dupId = none)
    (hemail : strOpt attrs.email ≠ "")
    (hphone : strOpt attrs.phone_number = "")
    (hlook : replyOk (o ⟨"GET", emailFilterPath (strOpt attrs.email),
      .noBody⟩) = true)
    (hjson : (o ⟨"GET", emailFilterPath (strOpt attrs.email),
      .noBody⟩).json = .list ids)
    (hid : jsOrNull ids.head? = some i)
    (hpatch : replyOk (o ⟨"PATCH", "/api/profiles/" ++ i,
      .profilePatch i attrs⟩) = true) :
    upsertProfile env o attrs =
      (.ok ⟨false, true, some i⟩,
        [⟨"POST", "/api/profiles", .profileCreate attrs⟩,
          ⟨"GET", emailFilterPath (strOpt attrs.email), .noBody⟩,
          ⟨"GET", emailFilterPath (strOpt attrs.email), .noBody⟩,
          ⟨"PATCH", "/api/profiles/" ++ i, .profilePatch i attrs⟩]) ∧
      List.countP (isEmailLookupCall (strOpt attrs.email))
        [⟨"POST", "/api/profiles", .profileCreate attrs⟩,
          ⟨"GET", emailFilterPath (strOpt attrs.email), .noBody⟩,
          ⟨"GET", emailFilterPath (strOpt attrs.email), .noBody⟩,
          ⟨"PATCH", "/api/profiles/" ++ i, .profilePatch i attrs⟩] = 2 := by
  have hro : replyOk (o ⟨"POST", "/api/profiles", .profileCreate attrs⟩)
      = false := by
    simp [replyOk, hstatus]
  have hkr : klaviyoRequest env o "POST" "/api/profiles" (.profileCreate attrs)
      = (.error (.kl (o ⟨"POST", "/api/profiles", .profileCreate attrs⟩)
          "POST" "/api/profiles"),
        [⟨"POST", "/api/profiles", .profileCreate attrs⟩]) := by
    simp [klaviyoRequest, hkey, hro]
  have hdd : diagnoseDuplicate env o attrs =
      [⟨"GET", emailFilterPath (strOpt attrs.email), .noBody⟩] := by
    simp only [diagnoseDuplicate]
    rw [if_neg hemail, if_pos hphone, klaviyoRequest_snd_key env o "GET"
      (emailFilterPath (strOpt attrs.email)) .noBody hkey]
    simp
  have hlookup : getProfileIdByEmail env o (strOpt attrs.email) =
      (.ok (some i), [⟨"GET", emailFilterPath (strOpt attrs.email), .noBody⟩]) := by
    simp [getProfileIdByEmail, hemail, klaviyoRequest, hkey, hlook, hjson,
      respFirstId, hid]
  have hpp : patchProfile env o i attrs =
      (.ok (), [⟨"PATCH", "/api/profiles/" ++ i, .profilePatch i attrs⟩]) := by
    simp [patchProfile, klaviyoRequest, hkey, hpatch]
  constructor
  · simp [upsertProfile, hkr, hstatus, hdup, hdd, hlookup, hpp]
  · simp [List.countP_cons, isEmailLookupCall]

/-- Witness for C3 (amended) at the concrete conflict scenario. -/
theorem klaviyo_C3_conflict_without_dup_witness :
    upsertProfile envK c3Oracle attrsConflict =
      (.ok ⟨false, true, some "ID1"⟩,
        [⟨"POST", "/api/profiles", .profileCreate attrsConflict⟩,
          ⟨"GET", emailFilterPath (strOpt attrsConflict.email), .noBody⟩,
          ⟨"GET", emailFilterPath (strOpt attrsConflict.email), .noBody⟩,
          ⟨"PATCH", "/api/profiles/" ++ "ID1",
            .profilePatch "ID1" attrsConflict⟩]) :=
  (klaviyo_C3_conflict_without_dup envK c3Oracle attrsConflict ["ID1"] "ID1"
    (by decide) (by decide) (by decide) (by decide) (by decide) (by decide)
    (by decide) (by decide) (by decide)).1

/-! ### C9 — log redaction -/

/-- C9: evaluated at the failing input, the `part_001` handler's
`skip_no_marketing` log entry carries the raw email `"jane@example.com"`,
not its redacted form `"j***@example.com"` — contradicting the
redaction requirement the code's own comments state. -/
theorem klaviyo_C9_raw_email_logged :
    handler_p1 c9Env oDummy "POST" none c9Payload =
      (.skipped, [],
        [⟨"skip_no_marketing", [("email", "jane@example.com")]⟩]) ∧
      redactEmail "jane@example.com" = "j***@example.com" ∧
      ("jane@example.com" : String) ≠ "j***@example.com" := by
  decide

/-! ### C10 — upsert result invariant -/

theorem klaviyoRequest_fst_ok (env : Env) (o : Oracle) (m pth : String)
    (b : CallBody) (resp : ApiResponse) (t : List Call)
    (h : klaviyoRequest env o m pth b = (.ok resp, t)) :
    replyOk (o ⟨m, pth, b⟩) = true := by
  unfold klaviyoRequest at h
  split at h
  · simp at h
  · split at h
    · assumption
    · simp at h

theorem jsOrNull_some (x : Option String) (s : String)
    (h : jsOrNull x = some s) : s ≠ "" := by
  cases x with
  | none => simp [jsOrNull] at h
  | some s2 =>
    by_cases h2 : s2 = ""
    · simp [jsOrNull, h2] at h
    · simp [jsOrNull, h2] at h
      rw [← h]
      exact h2

theorem getProfileIdByEmail_ok_some (env : Env) (o : Oracle) (e i : String)
    (t : List Call) (h : getProfileIdByEmail env o e = (.ok (some i), t)) :
    i ≠ "" := by
  unfold getProfileIdByEmail at h
  split at h
  · simp at h
  · split at h
    · rename_i resp t2 heq
      simp only [Prod.mk.injEq, Except.ok.injEq] at h
      exact jsOrNull_some _ _ h.1
    · simp at h

/-- C10 (confirmed): every result the upsert returns has exactly one of
`created`/`patched` set; a patched result carries a non-null, non-empty
profile id; and a conflicting create (status 409) can never produce
`created = true`. -/
theorem klaviyo_C10_upsert_invariant (env : Env) (o : Oracle)
    (attrs : ProfileAttributes) (r : UpsertResult) (t : List Call)
    (h : upsertProfile env o attrs = (.ok r, t)) :
    r.created = !r.patched ∧
      (r.patched = true → r.profileId.getD "" ≠ "") ∧
      ((o ⟨"POST", "/api/profiles", .profileCreate attrs⟩).status = 409 →
        r.created = false) := by
  unfold upsertProfile at h
  split at h
  · rename_i resp t1 heq
    have hro := klaviyoRequest_fst_ok env o _ _ _ _ _ heq
    injection h with h1 h2
    injection h1 with h3
    subst h3
    refine ⟨rfl, ?_, ?_⟩
    · intro hpat
      simp at hpat
    · intro h409
      exact absurd hro (by simp [replyOk, h409])
  · simp at h
  · rename_i r2 method pth t1 heq
    split at h
    · split at h
      · rename_i dId hdupEq
        split at h
        · rename_i u t3 heq2
          injection h with h1 h2
          injection h1 with h3
          subst h3
          exact ⟨rfl, fun _ => by simpa using jsOrNull_some _ _ hdupEq,
            fun _ => rfl⟩
        · simp at h
      · rename_i hdupEq
        split at h
        · simp at h
        · simp at h
        · rename_i i t3 heq2
          split at h
          · rename_i u t4 heq3
            injection h with h1 h2
            injection h1 with h3
            subst h3
            exact ⟨rfl,
              fun _ => by simpa using getProfileIdByEmail_ok_some env o _ _ _ heq2,
              fun _ => rfl⟩
          · simp at h
    · simp at h

/-- Witness for C10 at a plainly succeeding create. -/
theorem klaviyo_C10_upsert_invariant_witness :
    (⟨true, false, some "NEW1"⟩ : UpsertResult).created =
      !(⟨true, false, some "NEW1"⟩ : UpsertResult).patched := by
  have h := klaviyo_C10_upsert_invariant envK c10Oracle attrsConflict
    ⟨true, false, some "NEW1"⟩
    [⟨"POST", "/api/profiles", .profileCreate attrsConflict⟩] (by decide)
  exact h.1
